import Mathlib

/-!
Verification of the time-window extraction engine of
`tap-azure-log-analytics` (`tap_azure_log_analytics/client.py` and
`tap_azure_log_analytics/streams.py`), as a shallow embedding in Lean 4.

Python `datetime` values are modelled as a count of seconds (an `Int`,
arbitrary epoch) together with a timezone-awareness flag; `replace(tzinfo=utc)`
on a naive datetime keeps the wall-clock reading and marks it aware, which is
exactly setting the flag.  `timedelta(days=n)` is `n * 86400` seconds and
`timedelta(minutes=5)` is `300` seconds.
-/

/-- A Python `datetime`: seconds since an arbitrary epoch plus the
timezone-awareness flag (`aware = false` models `tzinfo is None`). -/
structure Datetime where
  sec : Int
  aware : Bool
deriving DecidableEq, Repr

/-- `d + timedelta(days=n)`: pure arithmetic, tz-awareness unchanged. -/
def Datetime.addDays (d : Datetime) (n : Int) : Datetime :=
  { sec := d.sec + n * 86400, aware := d.aware }

/-- Python `min(a, b)` on datetimes: returns `a` unless `b < a`. -/
def minDT (a b : Datetime) : Datetime :=
  if a.sec ≤ b.sec then a else b

/-- The `while current_start < end_time` loop body of `_chunk_timespan`
(client.py lines 205-213), with a fuel argument bounding the number of
iterations.  `chunk_timespan` below supplies fuel that is provably
sufficient whenever `chunk_days > 0` (see `chunkLoop_fuel_irrelevant`-style
facts inside the proofs: each iteration advances the cursor by at least one
second). -/
def chunkLoop (fuel : Nat) (endT : Datetime) (chunkDays : Int)
    (cur : Datetime) : List (Datetime × Datetime) :=
  match fuel with
  | 0 => []
  | fuel + 1 =>
    if cur.sec < endT.sec then
      (cur, minDT (cur.addDays chunkDays) endT) ::
        chunkLoop fuel endT chunkDays (minDT (cur.addDays chunkDays) endT)
    else []

/-- `_chunk_timespan(start_time, end_time, chunk_days)` (client.py 184-213):
empty list when `start_time >= end_time`, a single whole-interval chunk when
`chunk_days <= 0`, otherwise the forward-walking loop. -/
def chunk_timespan (start_time end_time : Datetime) (chunk_days : Int) :
    List (Datetime × Datetime) :=
  if start_time.sec ≥ end_time.sec then []
  else if chunk_days ≤ 0 then [(start_time, end_time)]
  else chunkLoop (end_time.sec - start_time.sec).toNat end_time chunk_days start_time

/-- `_calculate_timespan` (client.py 135-182).  Inputs:
`nowSec` is `datetime.now(timezone.utc)` in seconds; `replication_key` is the
truthiness of `self.replication_key`; `watermark` is the value returned by
`self.get_starting_timestamp(context)` (`none` models Python `None`);
`start_date` is the (already parsed) `start_date` config entry;
`timespan_days` is `query_config.get("timespan_days")`.  Python truthiness of
`timespan_days` makes both `None` and `0` fall through to the 1-day default.
Returns `(start_time, end_time)`. -/
def calculate_timespan (nowSec : Int) (replication_key : Bool)
    (watermark : Option Datetime) (start_date : Option Datetime)
    (timespan_days : Option Int) : Datetime × Datetime :=
  let end_time : Datetime := { sec := nowSec - 300, aware := true }
  let start0 : Option Datetime :=
    if replication_key then watermark
    else
      match start_date with
      | some d => some d
      | none =>
        match timespan_days with
        | some n =>
          if n ≠ 0 then some { sec := end_time.sec - n * 86400, aware := true }
          else some { sec := end_time.sec - 86400, aware := true }
        | none => some { sec := end_time.sec - 86400, aware := true }
  let start1 : Option Datetime :=
    match start0 with
    | some st => some (if st.aware then st else { sec := st.sec, aware := true })
    | none => none
  let start_time : Datetime :=
    match start1 with
    | some st => st
    | none => { sec := end_time.sec - 86400, aware := true }
  (start_time, end_time)

/-- The Singer field type descriptors produced by `_map_column_type`
(the `singer_sdk.typing` helper classes used in client.py 89-100). -/
inductive JSONType where
  | StringType
  | UUIDType
  | IntegerType
  | NumberType
  | DecimalType
  | BooleanType
  | DateTimeType
deriving DecidableEq, Repr

/-- The JSON-schema `type` name each singer descriptor serializes to. -/
def JSONType.jsonName : JSONType → String
  | .StringType => "string"
  | .UUIDType => "string"
  | .IntegerType => "integer"
  | .NumberType => "number"
  | .DecimalType => "number"
  | .BooleanType => "boolean"
  | .DateTimeType => "string"

/-- Python's `str.lower()`, character by character (the declared type names
this is applied to are ASCII). -/
def strLower (s : String) : String := ⟨s.data.map Char.toLower⟩

/-- `_map_column_type(column_type)` (client.py 80-102): the fixed dict lookup
on `column_type.lower()` with `StringType` as the `.get` default. -/
def map_column_type (column_type : String) : JSONType :=
  let c := strLower column_type
  if c = "string" then .StringType
  else if c = "guid" then .UUIDType
  else if c = "long" then .IntegerType
  else if c = "int" then .IntegerType
  else if c = "real" then .NumberType
  else if c = "decimal" then .DecimalType
  else if c = "bool" then .BooleanType
  else if c = "datetime" then .DateTimeType
  else if c = "timespan" then .StringType
  else if c = "dynamic" then .StringType
  else .StringType

/-- A row value returned by the transport; opaque to the driver, which only
moves values around. -/
inductive Value where
  | str (s : String)
  | int (n : Int)
  | bool (b : Bool)
  | null
deriving DecidableEq, Repr

/-- A result table from the logs-query transport: ordered column names, the
parallel ordered declared types, and the rows (positional value lists). -/
structure LogsTable where
  columns : List String
  columns_types : List String
  rows : List (List Value)
deriving DecidableEq, Repr

/-- `_generate_schema_from_results(tables)` (client.py 104-133): empty
properties list when there are no tables, otherwise the first table's
`(name, mapped type)` pairs in column order (`zip` truncates at the shorter
of the two parallel lists, as Python `zip` does). -/
def generate_schema_from_results (tables : List LogsTable) :
    List (String × JSONType) :=
  match tables with
  | [] => []
  | table :: _ =>
    (table.columns.zip table.columns_types).map
      (fun p => (p.1, map_column_type p.2))

/-- The log calls made by `get_records` and `_generate_schema`, modelled
structurally so that theorems can say which stream / chunk a message
identifies. -/
inductive LogEvent where
  | noQueryError
  | chunkInfo (stream : String) (chunkStart chunkEnd : Datetime)
  | chunkPartWarning (stream : String) (chunkStart chunkEnd : Datetime)
  | chunkQueryError (stream : String) (err : String)
  | schemaStatusWarning (stream : String)
  | schemaExcWarning (stream : String) (err : String)
deriving DecidableEq, Repr

/-- The outcome of one `client.query_workspace` call inside `get_records`:
a response with SUCCESS status, a response with PARTIAL status (carrying
`partial_data`), a response with any other status (the code's `if`/`elif`
falls through silently), or an `HttpResponseError` raised by the call. -/
inductive QueryOutcome where
  | success (tables : List LogsTable)
  | partResult (part_data : List LogsTable)
  | otherStatus
  | raised (err : String)
deriving DecidableEq, Repr

/-- `dict(zip(table.columns, row))` for every row of every table, in order
(client.py 252-256 and 262-265).  A record is its ordered field list. -/
def recordsOfTables (tables : List LogsTable) : List (List (String × Value)) :=
  tables.flatMap (fun t => t.rows.map (fun row => t.columns.zip row))

/-- The observable result of one `get_records` run: the records yielded, the
log calls made, the exception re-raised (if any), and the chunks for which
the transport was actually invoked, in invocation order. -/
structure RunResult where
  records : List (List (String × Value))
  logs : List LogEvent
  raised : Option String
  attempted : List (Datetime × Datetime)
deriving DecidableEq, Repr

/-- The `for chunk_start, chunk_end in chunks` loop of `get_records`
(client.py 239-269).  `transport` is the oracle for
`client.query_workspace` on each chunk.  A raised `HttpResponseError` is
logged and re-raised, ending the loop; SUCCESS and PARTIAL yield every row
of every table; any other status yields nothing and continues. -/
def runChunks (stream : String) (transport : Datetime × Datetime → QueryOutcome) :
    List (Datetime × Datetime) → RunResult
  | [] => { records := [], logs := [], raised := none, attempted := [] }
  | c :: rest =>
    match transport c with
    | .success tables =>
      let r := runChunks stream transport rest
      { records := recordsOfTables tables ++ r.records,
        logs := LogEvent.chunkInfo stream c.1 c.2 :: r.logs,
        raised := r.raised,
        attempted := c :: r.attempted }
    | .partResult tables =>
      let r := runChunks stream transport rest
      { records := recordsOfTables tables ++ r.records,
        logs := LogEvent.chunkInfo stream c.1 c.2 ::
          LogEvent.chunkPartWarning stream c.1 c.2 :: r.logs,
        raised := r.raised,
        attempted := c :: r.attempted }
    | .otherStatus =>
      let r := runChunks stream transport rest
      { records := r.records,
        logs := LogEvent.chunkInfo stream c.1 c.2 :: r.logs,
        raised := r.raised,
        attempted := c :: r.attempted }
    | .raised e =>
      { records := [],
        logs := [LogEvent.chunkInfo stream c.1 c.2,
                 LogEvent.chunkQueryError stream e],
        raised := some e,
        attempted := [c] }

/-- `get_records(context)` (client.py 215-269): bail out with an error log on
an empty query, otherwise compute the timespan, chunk it with
`chunk_size_days` defaulting to `1`, and run the chunk loop. -/
def get_records (stream : String) (query : String) (nowSec : Int)
    (replication_key : Bool) (watermark start_date : Option Datetime)
    (timespan_days chunk_size_days : Option Int)
    (transport : Datetime × Datetime → QueryOutcome) : RunResult :=
  if query = "" then
    { records := [], logs := [LogEvent.noQueryError], raised := none,
      attempted := [] }
  else
    let ts := calculate_timespan nowSec replication_key watermark start_date
      timespan_days
    runChunks stream transport (chunk_timespan ts.1 ts.2 (chunk_size_days.getD 1))

/-- A `LogsQueryStatus` other than the two the code tests for. -/
inductive QStatus where
  | success
  | partStatus
  | failure
deriving DecidableEq, Repr

/-- The outcome of the probe `query_workspace` call inside
`_generate_schema` (streams.py 61-65): either the call raised, or it
returned a response with a status, `tables`, and `partial_data`. -/
inductive ProbeOutcome where
  | raised (err : String)
  | response (status : QStatus) (tables part_data : List LogsTable)
deriving DecidableEq, Repr

/-- `_generate_schema` (streams.py 43-80): empty schema on an empty query;
on SUCCESS or PARTIAL, schema from `tables` resp. `partial_data`; on any
other status, warn and return the empty schema; on any exception, warn and
return the empty schema.  Returns `(schema, log calls)`. -/
def generate_schema (stream : String) (query : String)
    (probe : ProbeOutcome) : List (String × JSONType) × List LogEvent :=
  if query = "" then ([], [])
  else
    match probe with
    | .raised e => ([], [LogEvent.schemaExcWarning stream e])
    | .response st tables part_data =>
      if st = .success ∨ st = .partStatus then
        (generate_schema_from_results
          (if st = .success then tables else part_data), [])
      else ([], [LogEvent.schemaStatusWarning stream])

/-- Specification predicate for the chunk lists produced by the splitter's
loop: the list is nonempty, adjacent chunks share their boundary, every
chunk is nonempty with width at most `d` days, every chunk but the last is
exactly `d` days wide, and the last chunk ends exactly at `e`. -/
def ChunksOK (e : Datetime) (d : Int) : List (Datetime × Datetime) → Prop
  | [] => False
  | [(a, b)] => b = e ∧ a.sec < b.sec ∧ b.sec - a.sec ≤ d * 86400
  | (a, b) :: (c, f) :: rest =>
    b = c ∧ a.sec < b.sec ∧ b.sec - a.sec = d * 86400 ∧
    ChunksOK e d ((c, f) :: rest)

/-! ## Chunk splitter: loop invariant and derived facts -/

theorem dtExt {a b : Datetime} (h1 : a.sec = b.sec) (h2 : a.aware = b.aware) :
    a = b := by
  cases a; cases b; simp_all

theorem chunkLoop_stop (fuel : Nat) (endT : Datetime) (d : Int)
    (cur : Datetime) (h : ¬ cur.sec < endT.sec) :
    chunkLoop fuel endT d cur = [] := by
  cases fuel <;> simp [chunkLoop, h]

theorem chunkLoop_spec (d : Int) (hd : 0 < d) :
    ∀ (fuel : Nat) (endT cur : Datetime),
      cur.aware = endT.aware → cur.sec < endT.sec →
      endT.sec - cur.sec ≤ (fuel : Int) →
      ChunksOK endT d (chunkLoop fuel endT d cur) ∧
      ∃ b rest, chunkLoop fuel endT d cur = (cur, b) :: rest := by
  intro fuel
  induction fuel with
  | zero =>
    intro endT cur ha hlt hfu
    exfalso
    simp only [Nat.cast_zero] at hfu
    omega
  | succ n ih =>
    intro endT cur ha hlt hfu
    have hsec : (cur.addDays d).sec = cur.sec + d * 86400 := rfl
    have haw : (cur.addDays d).aware = endT.aware := ha
    by_cases hcase : (cur.addDays d).sec < endT.sec
    · have hmin : minDT (cur.addDays d) endT = cur.addDays d := by
        simp [minDT, le_of_lt hcase]
      have hfu2 : endT.sec - (cur.addDays d).sec ≤ (n : Int) := by omega
      obtain ⟨hok, b, rest, heq⟩ := ih endT (cur.addDays d) haw hcase hfu2
      constructor
      · show ChunksOK endT d (chunkLoop (n + 1) endT d cur)
        simp only [chunkLoop, if_pos hlt, hmin, heq]
        rw [heq] at hok
        exact ⟨rfl, by omega, by omega, hok⟩
      · refine ⟨cur.addDays d, (cur.addDays d, b) :: rest, ?_⟩
        simp only [chunkLoop, if_pos hlt, hmin, heq]
    · have hend : minDT (cur.addDays d) endT = endT := by
        unfold minDT
        by_cases hle : (cur.addDays d).sec ≤ endT.sec
        · rw [if_pos hle]
          exact dtExt (by omega) haw
        · rw [if_neg hle]
      have htail : chunkLoop n endT d endT = [] :=
        chunkLoop_stop n endT d endT (by omega)
      constructor
      · show ChunksOK endT d (chunkLoop (n + 1) endT d cur)
        simp only [chunkLoop, if_pos hlt, hend, htail]
        show ChunksOK endT d [(cur, endT)]
        exact ⟨rfl, hlt, by omega⟩
      · exact ⟨endT, [], by simp only [chunkLoop, if_pos hlt, hend, htail]⟩

theorem chunksOK_last (e : Datetime) (d : Int) :
    ∀ L, ChunksOK e d L → L.getLast?.map Prod.snd = some e := by
  intro L
  induction L with
  | nil => intro h; exact absurd h (by simp [ChunksOK])
  | cons a tl ih =>
    obtain ⟨a1, a2⟩ := a
    cases tl with
    | nil =>
      intro h
      simp only [ChunksOK] at h
      simp [h.1]
    | cons b tl2 =>
      obtain ⟨b1, b2⟩ := b
      intro h
      simp only [ChunksOK] at h
      have := ih h.2.2.2
      simpa [List.getLast?_cons_cons] using this

theorem chunksOK_chain (e : Datetime) (d : Int) :
    ∀ L, ChunksOK e d L →
      List.Chain' (fun x y : Datetime × Datetime =>
        x.2 = y.1 ∧ x.2.sec - x.1.sec = d * 86400) L := by
  intro L
  induction L with
  | nil => intro h; exact absurd h (by simp [ChunksOK])
  | cons a tl ih =>
    obtain ⟨a1, a2⟩ := a
    cases tl with
    | nil => intro h; simp
    | cons b tl2 =>
      obtain ⟨b1, b2⟩ := b
      intro h
      simp only [ChunksOK] at h
      exact List.chain'_cons.mpr ⟨⟨h.1, h.2.2.1⟩, ih h.2.2.2⟩

theorem chunksOK_mem (e : Datetime) (d : Int) :
    ∀ L, ChunksOK e d L →
      ∀ c ∈ L, c.1.sec < c.2.sec ∧ c.2.sec - c.1.sec ≤ d * 86400 := by
  intro L
  induction L with
  | nil => intro h; exact absurd h (by simp [ChunksOK])
  | cons a tl ih =>
    obtain ⟨a1, a2⟩ := a
    cases tl with
    | nil =>
      intro h c hc
      simp only [ChunksOK] at h
      simp only [List.mem_singleton] at hc
      subst hc
      exact ⟨h.2.1, h.2.2⟩
    | cons b tl2 =>
      obtain ⟨b1, b2⟩ := b
      intro h c hc
      simp only [ChunksOK] at h
      rcases List.mem_cons.mp hc with rfl | hc2
      · exact ⟨h.2.1, le_of_eq h.2.2.1⟩
      · exact ih h.2.2.2 c hc2

/-- C1: for every interval with `start < end` (timezone handling consistent
between the two endpoints) and every `chunk_days d > 0`, `_chunk_timespan`
partitions `[start, end)` exactly: the result is nonempty, the first chunk
starts at `start`, the last chunk ends at `end`, each chunk's end is the
next chunk's start with every non-final chunk exactly `d` days wide (so only
the final chunk may be narrower), and every chunk has positive width of at
most `d` days; in particular splitting `[2024-01-01T00:00Z, 2024-01-06T00:00Z)`
with `chunk_days = 2` yields exactly the three chunks
`(01-01, 01-03), (01-03, 01-05), (01-05, 01-06)`. -/
theorem C1_chunk_partition (s e : Datetime) (d : Int)
    (hse : s.sec < e.sec) (hd : 0 < d) (ha : s.aware = e.aware) :
    chunk_timespan s e d ≠ [] ∧
    (chunk_timespan s e d).head?.map Prod.fst = some s ∧
    (chunk_timespan s e d).getLast?.map Prod.snd = some e ∧
    List.Chain' (fun x y : Datetime × Datetime =>
      x.2 = y.1 ∧ x.2.sec - x.1.sec = d * 86400) (chunk_timespan s e d) ∧
    (∀ c ∈ chunk_timespan s e d,
      c.1.sec < c.2.sec ∧ c.2.sec - c.1.sec ≤ d * 86400) ∧
    chunk_timespan ⟨1704067200, true⟩ ⟨1704499200, true⟩ 2 =
      [(⟨1704067200, true⟩, ⟨1704240000, true⟩),
       (⟨1704240000, true⟩, ⟨1704412800, true⟩),
       (⟨1704412800, true⟩, ⟨1704499200, true⟩)] := by
  have hne : ¬ s.sec ≥ e.sec := by omega
  have hnd : ¬ d ≤ 0 := by omega
  have hfuel : e.sec - s.sec ≤ (((e.sec - s.sec).toNat : Nat) : Int) := by
    rw [Int.toNat_of_nonneg (by omega)]
  have hmain := chunkLoop_spec d hd (e.sec - s.sec).toNat e s ha hse hfuel
  have heq : chunk_timespan s e d = chunkLoop (e.sec - s.sec).toNat e d s := by
    simp [chunk_timespan, hne, hnd]
  obtain ⟨hok, b, rest, hcons⟩ := hmain
  refine ⟨?_, ?_, ?_, ?_, ?_, by decide⟩
  · rw [heq, hcons]; simp
  · rw [heq, hcons]; simp
  · rw [heq]; exact chunksOK_last e d _ hok
  · rw [heq]; exact chunksOK_chain e d _ hok
  · rw [heq]; exact chunksOK_mem e d _ hok

theorem C1_chunk_partition_witness :
    chunk_timespan ⟨1704067200, true⟩ ⟨1704499200, true⟩ 2 ≠ [] ∧
    (chunk_timespan ⟨1704067200, true⟩ ⟨1704499200, true⟩ 2).head?.map
      Prod.fst = some ⟨1704067200, true⟩ := by
  have h := C1_chunk_partition ⟨1704067200, true⟩ ⟨1704499200, true⟩ 2
    (by decide) (by decide) (by decide)
  exact ⟨h.1, h.2.1⟩

/-- C2: `_chunk_timespan` never raises on degenerate input: whenever
`start >= end` it returns the empty list regardless of `chunk_days`, and
whenever `chunk_days <= 0` with `start < end` it returns exactly the single
chunk `(start, end)`. -/
theorem C2_chunk_degenerate (s e : Datetime) (d : Int) :
    (s.sec ≥ e.sec → chunk_timespan s e d = []) ∧
    (s.sec < e.sec → d ≤ 0 → chunk_timespan s e d = [(s, e)]) := by
  constructor
  · intro h
    simp [chunk_timespan, h]
  · intro h1 h2
    have hne : ¬ s.sec ≥ e.sec := by omega
    simp [chunk_timespan, hne, h2]

theorem C2_chunk_degenerate_witness :
    chunk_timespan ⟨10, true⟩ ⟨5, true⟩ 3 = [] ∧
    chunk_timespan ⟨0, true⟩ ⟨100, false⟩ (-2) = [(⟨0, true⟩, ⟨100, false⟩)] :=
  ⟨(C2_chunk_degenerate ⟨10, true⟩ ⟨5, true⟩ 3).1 (by decide),
   (C2_chunk_degenerate ⟨0, true⟩ ⟨100, false⟩ (-2)).2 (by decide) (by decide)⟩

/-! ## Timespan calculator -/

/-- C3: whenever a replication key is in use and the state store supplies a
watermark `W` (a timezone-aware instant), `_calculate_timespan` returns
`start = W`, for every configured `start_date` and every configured
`timespan_days`. -/
theorem C3_watermark_precedence (nowSec : Int) (W : Datetime)
    (start_date : Option Datetime) (timespan_days : Option Int)
    (hW : W.aware = true) :
    (calculate_timespan nowSec true (some W) start_date timespan_days).1 = W := by
  simp [calculate_timespan, hW]

theorem C3_watermark_precedence_witness :
    (calculate_timespan 1000000 true (some ⟨777, true⟩) (some ⟨5, false⟩)
      (some 9)).1 = ⟨777, true⟩ :=
  C3_watermark_precedence 1000000 ⟨777, true⟩ (some ⟨5, false⟩) (some 9) rfl

/-- C4 counterexample: with no watermark, no static start date, and a
configured lookback `timespan_days = 0`, the code falls through Python
truthiness (`if timespan_days:`) to the 1-day default, so the computed start
is `end - 1 day`, not `end - 0 days = end` as the claim, read at `N = 0`,
would require. -/
theorem C4_counterexample :
    (calculate_timespan 1000000 false none none (some 0)).1 =
      ⟨1000000 - 300 - 86400, true⟩ ∧
    ¬ (calculate_timespan 1000000 false none none (some 0)).1 =
      ⟨(calculate_timespan 1000000 false none none (some 0)).2.sec - 0 * 86400,
        true⟩ := by
  constructor <;> decide

/-- C4 (amended): for every run with no replication key, the returned end is
`now - 5 minutes`; with a static `start_date D` configured, start is `D`
(made timezone-aware UTC when naive) even when a lookback is configured;
otherwise with a nonzero lookback `timespan_days = N` configured, start is
`end - N days`; otherwise (no lookback, or lookback `0`, which Python
truthiness treats as unset) start is `end - 1 day`. -/
theorem C4_no_watermark_start (nowSec : Int) (D : Datetime) (N : Int)
    (timespan_days : Option Int) (hN : N ≠ 0) :
    (calculate_timespan nowSec false none (some D) timespan_days).2 =
      ⟨nowSec - 300, true⟩ ∧
    (calculate_timespan nowSec false none (some D) timespan_days).1 =
      (if D.aware then D else ⟨D.sec, true⟩) ∧
    (calculate_timespan nowSec false none none (some N)).1 =
      ⟨nowSec - 300 - N * 86400, true⟩ ∧
    (calculate_timespan nowSec false none none none).1 =
      ⟨nowSec - 300 - 86400, true⟩ := by
  refine ⟨rfl, ?_, ?_, rfl⟩
  · by_cases hD : D.aware <;> simp [calculate_timespan, hD]
  · simp [calculate_timespan, hN]

theorem C4_no_watermark_start_witness :
    (calculate_timespan 1000000 false none (some ⟨4444, false⟩) (some 7)).2 =
      ⟨1000000 - 300, true⟩ ∧
    (calculate_timespan 1000000 false none (some ⟨4444, false⟩) (some 7)).1 =
      ⟨4444, true⟩ ∧
    (calculate_timespan 1000000 false none none (some 7)).1 =
      ⟨1000000 - 300 - 7 * 86400, true⟩ ∧
    (calculate_timespan 1000000 false none none none).1 =
      ⟨1000000 - 300 - 86400, true⟩ := by
  obtain ⟨h1, h2, h3, h4⟩ := C4_no_watermark_start 1000000 ⟨4444, false⟩ 7
    (some 7) (by decide)
  exact ⟨h1, by simpa using h2, h3, h4⟩

/-- C10: `_calculate_timespan` always returns a timezone-aware start (for
every input the start's awareness flag is set), and when a replication key
is set but the state store yields no starting timestamp, the start defaults
to `end - 1 day` instead of being absent or an error. -/
theorem C10_start_always_aware (nowSec : Int) (rk : Bool)
    (watermark start_date : Option Datetime) (timespan_days : Option Int) :
    (calculate_timespan nowSec rk watermark start_date timespan_days).1.aware
      = true ∧
    (calculate_timespan nowSec true none start_date timespan_days).1 =
      ⟨nowSec - 300 - 86400, true⟩ := by
  constructor
  · cases rk
    · cases start_date with
      | some D => by_cases hD : D.aware <;> simp [calculate_timespan, hD]
      | none =>
        cases timespan_days with
        | some n => by_cases hn : n = 0 <;> simp [calculate_timespan, hn]
        | none => simp [calculate_timespan]
    · cases watermark with
      | some W => by_cases hW : W.aware <;> simp [calculate_timespan, hW]
      | none => simp [calculate_timespan]
  · rfl

/-! ## Type mapper and schema inferrer -/

/-- C5: `_map_column_type` sends the declared types `dynamic` and `timespan`
to the String descriptor unconditionally (it takes no row or sample input at
all), sends every unrecognized declared-type name to String, and
`_generate_schema_from_results` applies the mapper to each column of the
(first) table preserving column order; in particular declared types
`["int", "dynamic", "dynamic"]` for columns `["id", "properties", "tags"]`
yield the descriptors Integer, String, String — independent of the rows —
whose JSON-schema names are `["integer", "string", "string"]`. -/
theorem C5_type_mapper (rows : List (List Value)) (t u : String)
    (tbl : LogsTable) (rest : List LogsTable)
    (hdyn : strLower t = "dynamic" ∨ strLower t = "timespan")
    (hunk : strLower u ∉ ["string", "guid", "long", "int", "real", "decimal",
      "bool", "datetime", "timespan", "dynamic"]) :
    map_column_type t = JSONType.StringType ∧
    map_column_type u = JSONType.StringType ∧
    generate_schema_from_results (tbl :: rest) =
      (tbl.columns.zip tbl.columns_types).map
        (fun p => (p.1, map_column_type p.2)) ∧
    generate_schema_from_results
      [⟨["id", "properties", "tags"], ["int", "dynamic", "dynamic"], rows⟩] =
      [("id", JSONType.IntegerType), ("properties", JSONType.StringType),
       ("tags", JSONType.StringType)] ∧
    [JSONType.IntegerType, JSONType.StringType, JSONType.StringType].map
      JSONType.jsonName = ["integer", "string", "string"] := by
  refine ⟨?_, ?_, rfl, rfl, rfl⟩
  · rcases hdyn with h | h <;> simp [map_column_type, h]
  · simp only [List.mem_cons, List.not_mem_nil, or_false, not_or] at hunk
    obtain ⟨h1, h2, h3, h4, h5, h6, h7, h8, h9, h10⟩ := hunk
    simp [map_column_type, h1, h2, h3, h4, h5, h6, h7, h8, h9, h10]

theorem C5_type_mapper_witness :
    map_column_type "Dynamic" = JSONType.StringType ∧
    map_column_type "object" = JSONType.StringType := by
  obtain ⟨h1, h2, _, _, _⟩ := C5_type_mapper [] "Dynamic" "object"
    ⟨[], [], []⟩ [] (by decide) (by decide)
  exact ⟨h1, h2⟩

/-- C9: when the probe query returns more than one table,
`_generate_schema_from_results` builds the schema from the first table
alone: the result is unchanged under any replacement of the remaining
tables, and in particular a second table's columns contribute no fields. -/
theorem C9_first_table_only :
    (∀ (t1 : LogsTable) (others others2 : List LogsTable),
      generate_schema_from_results (t1 :: others) =
        generate_schema_from_results (t1 :: others2)) ∧
    generate_schema_from_results
      [⟨["a"], ["int"], []⟩, ⟨["ignored", "also_ignored"], ["bool", "guid"], []⟩] =
      [("a", JSONType.IntegerType)] :=
  ⟨fun _ _ _ => rfl, by decide⟩

/-- C8: `_generate_schema` never propagates a probe failure: a raised
transport exception yields the empty schema with a logged warning, a status
that is neither SUCCESS nor PARTIAL yields the empty schema with a logged
warning, and a successful response with no tables yields the empty schema
(the function is total: no outcome aborts extraction). -/
theorem C8_schema_inference_total (stream query e : String)
    (tables part_data : List LogsTable) (hq : query ≠ "") :
    generate_schema stream query (.raised e) =
      ([], [LogEvent.schemaExcWarning stream e]) ∧
    generate_schema stream query (.response .failure tables part_data) =
      ([], [LogEvent.schemaStatusWarning stream]) ∧
    (generate_schema stream query (.response .success [] part_data)).1 = [] := by
  refine ⟨?_, ?_, ?_⟩ <;>
    simp [generate_schema, hq, generate_schema_from_results]

theorem C8_schema_inference_total_witness :
    generate_schema "events" "q" (.raised "timeout") =
      ([], [LogEvent.schemaExcWarning "events" "timeout"]) ∧
    (generate_schema "events" "q" (.response .success [] [])).1 = [] := by
  obtain ⟨h1, _, h3⟩ := C8_schema_inference_total "events" "q" "timeout" [] []
    (by decide)
  exact ⟨h1, h3⟩

/-! ## Extraction driver -/

theorem recordsOfTables_length :
    ∀ tables : List LogsTable,
      (recordsOfTables tables).length =
        (tables.map (fun t => t.rows.length)).sum := by
  intro tables
  induction tables with
  | nil => rfl
  | cons t ts ih => simp [recordsOfTables, List.flatMap_cons, ih, Function.comp_def]

/-- C6: for every chunk whose transport call returns a PARTIAL response,
`get_records`' chunk loop logs a warning identifying the stream and chunk,
yields a record for every row of every table of the partial data (followed
by whatever the remaining chunks yield), and raises nothing on that chunk
(the run's raised error is exactly that of the remaining chunks); in
particular a partial response with one table of two rows yields exactly
those two records, with the warning logged and nothing raised. -/
theorem C6_part_results_yielded (stream : String)
    (transport : Datetime × Datetime → QueryOutcome)
    (c : Datetime × Datetime) (rest : List (Datetime × Datetime))
    (tables : List LogsTable)
    (h : transport c = QueryOutcome.partResult tables) :
    LogEvent.chunkPartWarning stream c.1 c.2 ∈
      (runChunks stream transport (c :: rest)).logs ∧
    (runChunks stream transport (c :: rest)).records =
      recordsOfTables tables ++ (runChunks stream transport rest).records ∧
    (runChunks stream transport (c :: rest)).raised =
      (runChunks stream transport rest).raised ∧
    (recordsOfTables tables).length =
      (tables.map (fun t => t.rows.length)).sum ∧
    runChunks "s" (fun _ => QueryOutcome.partResult
        [⟨["a", "b"], ["int", "string"],
          [[Value.int 1, Value.str "x"], [Value.int 2, Value.str "y"]]⟩])
        [(⟨0, true⟩, ⟨86400, true⟩)] =
      { records := [[("a", Value.int 1), ("b", Value.str "x")],
                    [("a", Value.int 2), ("b", Value.str "y")]],
        logs := [LogEvent.chunkInfo "s" ⟨0, true⟩ ⟨86400, true⟩,
                 LogEvent.chunkPartWarning "s" ⟨0, true⟩ ⟨86400, true⟩],
        raised := none,
        attempted := [(⟨0, true⟩, ⟨86400, true⟩)] } := by
  refine ⟨?_, ?_, ?_, recordsOfTables_length tables, by decide⟩ <;>
    simp [runChunks, h]

theorem C6_part_results_yielded_witness :
    LogEvent.chunkPartWarning "s" ⟨0, true⟩ ⟨86400, true⟩ ∈
      (runChunks "s" (fun _ => QueryOutcome.partResult
        [⟨["a"], ["int"], [[Value.int 1], [Value.int 2]]⟩])
        [(⟨0, true⟩, ⟨86400, true⟩)]).logs ∧
    (runChunks "s" (fun _ => QueryOutcome.partResult
        [⟨["a"], ["int"], [[Value.int 1], [Value.int 2]]⟩])
        [(⟨0, true⟩, ⟨86400, true⟩)]).raised =
      (runChunks "s" (fun _ => QueryOutcome.partResult
        [⟨["a"], ["int"], [[Value.int 1], [Value.int 2]]⟩])
        ([] : List (Datetime × Datetime))).raised := by
  obtain ⟨h1, _, h3, _, _⟩ := C6_part_results_yielded "s"
    (fun _ => QueryOutcome.partResult
      [⟨["a"], ["int"], [[Value.int 1], [Value.int 2]]⟩])
    (⟨0, true⟩, ⟨86400, true⟩) []
    [⟨["a"], ["int"], [[Value.int 1], [Value.int 2]]⟩] rfl
  exact ⟨h1, h3⟩

/-- C7: if the transport call for a chunk raises a transport error, the
chunk loop logs an error, the run's raised error is exactly that error, the
records yielded are exactly those of the (non-raising) chunks before it, and
the chunks attempted are exactly the earlier chunks followed by the failing
one, in list order — no later chunk is ever attempted. -/
theorem C7_error_aborts (stream : String)
    (transport : Datetime × Datetime → QueryOutcome)
    (pre : List (Datetime × Datetime)) (c : Datetime × Datetime)
    (post : List (Datetime × Datetime)) (e : String)
    (hpre : ∀ c' ∈ pre, ∀ err, transport c' ≠ QueryOutcome.raised err)
    (hc : transport c = QueryOutcome.raised e) :
    (runChunks stream transport (pre ++ c :: post)).raised = some e ∧
    LogEvent.chunkQueryError stream e ∈
      (runChunks stream transport (pre ++ c :: post)).logs ∧
    (runChunks stream transport (pre ++ c :: post)).records =
      (runChunks stream transport pre).records ∧
    (runChunks stream transport (pre ++ c :: post)).attempted = pre ++ [c] := by
  induction pre with
  | nil => refine ⟨?_, ?_, ?_, ?_⟩ <;> simp [runChunks, hc]
  | cons p ps ih =>
    have hp := hpre p (by simp) e
    have hps : ∀ c' ∈ ps, ∀ err, transport c' ≠ QueryOutcome.raised err :=
      fun c' hmem err => hpre c' (List.mem_cons_of_mem p hmem) err
    obtain ⟨ih1, ih2, ih3, ih4⟩ := ih hps
    cases ho : transport p with
    | success tables =>
      refine ⟨?_, ?_, ?_, ?_⟩ <;>
        simp [runChunks, ho, List.cons_append, ih1, ih2, ih3, ih4]
    | partResult tables =>
      refine ⟨?_, ?_, ?_, ?_⟩ <;>
        simp [runChunks, ho, List.cons_append, ih1, ih2, ih3, ih4]
    | otherStatus =>
      refine ⟨?_, ?_, ?_, ?_⟩ <;>
        simp [runChunks, ho, List.cons_append, ih1, ih2, ih3, ih4]
    | raised err => exact absurd ho (hpre p (by simp) err)

theorem C7_error_aborts_witness :
    (runChunks "s"
      (fun ch => if ch.1.sec = 0
        then QueryOutcome.success [⟨["a"], ["int"], [[Value.int 1]]⟩]
        else QueryOutcome.raised "boom")
      ([(⟨0, true⟩, ⟨86400, true⟩)] ++
        (⟨86400, true⟩, ⟨172800, true⟩) ::
          [(⟨172800, true⟩, ⟨259200, true⟩)])).raised = some "boom" ∧
    (runChunks "s"
      (fun ch => if ch.1.sec = 0
        then QueryOutcome.success [⟨["a"], ["int"], [[Value.int 1]]⟩]
        else QueryOutcome.raised "boom")
      ([(⟨0, true⟩, ⟨86400, true⟩)] ++
        (⟨86400, true⟩, ⟨172800, true⟩) ::
          [(⟨172800, true⟩, ⟨259200, true⟩)])).attempted =
      [(⟨0, true⟩, ⟨86400, true⟩)] ++ [(⟨86400, true⟩, ⟨172800, true⟩)] := by
  obtain ⟨h1, _, _, h4⟩ := C7_error_aborts "s"
    (fun ch => if ch.1.sec = 0
      then QueryOutcome.success [⟨["a"], ["int"], [[Value.int 1]]⟩]
      else QueryOutcome.raised "boom")
    [(⟨0, true⟩, ⟨86400, true⟩)] (⟨86400, true⟩, ⟨172800, true⟩)
    [(⟨172800, true⟩, ⟨259200, true⟩)] "boom"
    (by intro c' hmem err
        simp only [List.mem_singleton] at hmem
        subst hmem
        simp)
    (by simp)
  exact ⟨h1, h4⟩
